import Mathlib

set_option maxRecDepth 4000

/-
Verification development for the Taxinator repository.

The repository ships a Next.js client surface (`web/src/app/manual/page.tsx`,
the Tammy page) over a FastAPI middleware pipeline (the Job Pipeline).  The
backend engine itself is not part of the checked-in sources — only its README
and the client callers are — so the engine is modelled here from the design
document, while the client helpers (`buildUrl`, `fetchJson`, the pipeline
handlers) are embedded directly from the TypeScript sources.
-/

namespace Taxinator

/-- Modelled from the spec: severity of a `ValidationIssue` (`error` | `warning`);
the backend Validation Engine is missing from the sources. -/
inductive Severity where
  | error
  | warning
  deriving DecidableEq

/-- Modelled from the spec: `error`-severity test for issues (errors block
`transform`/`export`, warnings never block). -/
def Severity.isError : Severity → Bool
  | Severity.error => true
  | Severity.warning => false

/-- Modelled from the spec: one rule violation or advisory, with a stable code,
human message, severity and optional transaction reference. -/
structure ValidationIssue where
  code : String
  message : String
  severity : Severity
  transactionId : Option String
  deriving DecidableEq

/-- Modelled from the spec: aggregate of issues from the most recent validation
pass plus advisory suggested-fix strings. -/
structure ValidationReport where
  errors : List ValidationIssue
  warnings : List ValidationIssue
  suggestedFixes : List String
  deriving DecidableEq

/-- Modelled from the spec: the empty validation report (used when a job has
not been validated yet). -/
def emptyReport : ValidationReport :=
  { errors := [], warnings := [], suggestedFixes := [] }

/-- Modelled from the spec: canonical (normalized) transaction record produced
by the missing Normalization Engine.  Dates are day ordinals, monetary amounts
are integer cents. -/
structure Txn where
  transactionId : Option String
  account : String
  security : String
  acquired : Option Int
  disposed : Option Int
  proceeds : Int
  basis : Int
  term : Option String
  deriving DecidableEq

/-- Modelled from the spec: a raw upstream transaction row after field-name
aliasing, as a loosely typed record — a canonical field that could not be
populated is `none`; `extraFields` lists unexpected field names seen. -/
structure RawRecord where
  id : Option String
  account : Option String
  security : Option String
  acquired : Option Int
  disposed : Option Int
  proceeds : Option Int
  basis : Option Int
  term : Option String
  extraFields : List String
  deriving DecidableEq

/-- Modelled from the spec: an ingested identity/account (PII) record. -/
structure IdentityRecord where
  account : String
  name : String
  taxId : String
  deriving DecidableEq

/-- Modelled from the spec: immutable registry-owned vendor output contract. -/
structure VendorTemplate where
  vendorKey : String
  displayName : String
  version : String
  format : String
  requiredFields : List String
  mappingNotes : List String
  deriving DecidableEq

/-- Modelled from the spec: reconciliation output — accounts referenced by
transactions without a covering identity record, and whether aggregate
gain/loss ties out within tolerance. -/
structure ReconciliationResult where
  mismatchedAccounts : List String
  gainLossAlignment : Bool
  deriving DecidableEq

/-- Modelled from the spec: export artifact descriptor (download locator and
webhook event name). -/
structure ExportReport where
  downloadUrl : String
  webhookEvent : String
  deriving DecidableEq

/-- Modelled from the spec: a transformed payload for one vendor target
(shaped records plus an optional human-readable summary). -/
structure Payload where
  vendorKey : String
  records : List (List (String × String))
  humanReadable : Option String
  deriving DecidableEq

/-- Modelled from the spec: the Job Pipeline status enum. -/
inductive Status where
  | pendingUpload
  | ingested
  | transformed
  | reconciled
  | needsReview
  | exported
  deriving DecidableEq

/-- Modelled from the spec: linear position of a status in the pipeline
(`needs_review` is a side branch of `reconciled`). -/
def statusRank : Status → Nat
  | Status.pendingUpload => 0
  | Status.ingested => 1
  | Status.transformed => 2
  | Status.reconciled => 3
  | Status.needsReview => 3
  | Status.exported => 4

/-- Modelled from the spec: advance the status to `target` only if the job had
not already passed that point. -/
def advanceTo (target cur : Status) : Status :=
  if statusRank cur < statusRank target then target else cur

/-- Modelled from the spec: the Job entity with its owned collections
(normalized transactions, identity records, latest validation report,
reconciliation result, transformed payload per vendor key, export report,
optional externally supplied expected totals). -/
structure Job where
  jobId : String
  taxYear : Int
  vendorSource : String
  vendorTarget : String
  startedBy : String
  status : Status
  txns : List Txn
  identities : List IdentityRecord
  validationReport : Option ValidationReport
  reconciliation : Option ReconciliationResult
  transformed : List (String × Payload)
  exportReport : Option ExportReport
  expectedTotals : Option Int
  deriving DecidableEq

/-- Modelled from the spec: the FIS example template of the registry. -/
def fisTemplate : VendorTemplate :=
  { vendorKey := "fis",
    displayName := "FIS",
    version := "1.0.0",
    format := "fixed_width",
    requiredFields := ["account", "acquired", "disposed", "proceeds", "basis"],
    mappingNotes := ["Dates serialized as day ordinals", "Amounts in integer cents"] }

/-- Modelled from the spec: the WSC example template of the registry. -/
def wscTemplate : VendorTemplate :=
  { vendorKey := "wsc",
    displayName := "WSC",
    version := "1.0.0",
    format := "json",
    requiredFields := ["account", "security", "proceeds", "basis"],
    mappingNotes := ["JSON array of shaped records"] }

/-- Modelled from the spec: the static Vendor Template Registry with the
FIS/WSC example templates. -/
def vendorRegistry : List VendorTemplate :=
  [fisTemplate, wscTemplate]

/-- Modelled from the spec: look a vendor key up in the registry. -/
def findTemplate (key : String) : Option VendorTemplate :=
  vendorRegistry.find? (fun tpl => tpl.vendorKey == key)

/-- Modelled from the spec: long-term holding-period threshold in days. -/
def longTermThresholdDays : Int := 365

/-- Modelled from the spec: per-row normalization — a row is malformed (and
excluded) if a required canonical field (account, proceeds, basis) cannot be
populated after aliasing/coercion; the holding classification is derived from
the dates when the row does not carry one. -/
def normalizeRow (r : RawRecord) : Option Txn :=
  match r.account, r.proceeds, r.basis with
  | some acct, some pr, some ba =>
    let derived : Option String :=
      match r.acquired, r.disposed with
      | some a, some d => some (if longTermThresholdDays ≤ d - a then "long" else "short")
      | _, _ => none
    some { transactionId := r.id,
           account := acct,
           security := r.security.getD "",
           acquired := r.acquired,
           disposed := r.disposed,
           proceeds := pr,
           basis := ba,
           term := r.term.orElse (fun _ => derived) }
  | _, _, _ => none

/-- Modelled from the spec: batch normalization — canonical records of the
non-malformed rows, in input order. -/
def normalizeBatch (batch : List RawRecord) : List Txn :=
  batch.filterMap normalizeRow

/-- Modelled from the spec: ingestion summary for one batch (rows seen,
malformed count, missing/unexpected field sets, schema-drift flag). -/
structure IngestionSummary where
  totalRows : Nat
  malformedRows : Nat
  missingFields : List String
  unexpectedFields : List String
  schemaDrift : Bool
  deriving DecidableEq

/-- Modelled from the spec: required canonical fields a raw row failed to
populate. -/
def missingOf (r : RawRecord) : List String :=
  (if r.account.isNone then ["account"] else [])
    ++ (if r.proceeds.isNone then ["proceeds"] else [])
    ++ (if r.basis.isNone then ["basis"] else [])

/-- Modelled from the spec: build the ingestion summary of a batch; the drift
flag is raised when the unexpected-field set is non-empty and exceeds a small
fixed threshold relative to batch size. -/
def ingestionSummary (batch : List RawRecord) : IngestionSummary :=
  let unexpected := (batch.flatMap RawRecord.extraFields).dedup
  { totalRows := batch.length,
    malformedRows := (batch.filter (fun r => (normalizeRow r).isNone)).length,
    missingFields := (batch.flatMap missingOf).dedup,
    unexpectedFields := unexpected,
    schemaDrift := decide (unexpected ≠ []) && decide (batch.length < unexpected.length * 5) }

/-- Modelled from the spec: helper to build a validation issue. -/
def mkIssue (code message : String) (sev : Severity) (ref : Option String) : ValidationIssue :=
  { code := code, message := message, severity := sev, transactionId := ref }

/-- Modelled from the spec: required-field presence rule — a canonical
transaction missing a date yields a blocking error. -/
def requiredFieldIssues (ts : List Txn) : List ValidationIssue :=
  ts.flatMap fun t =>
    (if t.acquired.isNone then
      [mkIssue "missing_field" "acquisition date missing" Severity.error t.transactionId]
     else [])
      ++ (if t.disposed.isNone then
        [mkIssue "missing_field" "disposition date missing" Severity.error t.transactionId]
       else [])

/-- Modelled from the spec: date-ordering sanity rule — acquisition date after
disposition date yields a `date_order` blocking error. -/
def dateOrderIssues (ts : List Txn) : List ValidationIssue :=
  ts.filterMap fun t =>
    match t.acquired, t.disposed with
    | some a, some d =>
      if d < a then
        some (mkIssue "date_order" "acquisition date is after disposition date"
          Severity.error t.transactionId)
      else none
    | _, _ => none

/-- Modelled from the spec: duplicate-detection key (account + security +
dates). -/
def dupKey (t : Txn) : String × String × Option Int × Option Int :=
  (t.account, t.security, t.acquired, t.disposed)

/-- Modelled from the spec: duplicate-transaction rule — a repeated
account/security/dates combination yields a warning per occurrence. -/
def duplicateIssues (ts : List Txn) : List ValidationIssue :=
  ts.filterMap fun t =>
    if 2 ≤ ts.countP (fun u => dupKey u = dupKey t) then
      some (mkIssue "duplicate_transaction" "possible duplicate transaction"
        Severity.warning t.transactionId)
    else none

/-- Modelled from the spec: holding-period classification rule — a transaction
tagged long-term whose holding period is below the threshold yields a warning;
a missing classification yields a blocking error. -/
def termIssues (ts : List Txn) : List ValidationIssue :=
  ts.flatMap fun t =>
    match t.term with
    | none => [mkIssue "missing_classification" "holding-period classification missing"
        Severity.error t.transactionId]
    | some tag =>
      match t.acquired, t.disposed with
      | some a, some d =>
        if tag = "long" ∧ d - a < longTermThresholdDays then
          [mkIssue "term_mismatch" "tagged long-term below holding threshold"
            Severity.warning t.transactionId]
        else []
      | _, _ => []

/-- Modelled from the spec: suggested-fix hint per distinct error code
family. -/
def fixFor (code : String) : String :=
  if code = "missing_field" then "Populate the missing required field on the flagged rows"
  else if code = "date_order" then "Swap or correct the acquisition/disposition dates"
  else if code = "missing_classification" then "Provide a long/short holding classification"
  else "Review the flagged rows"

/-- Modelled from the spec: the Validation Engine — run the fixed, ordered rule
set over the full canonical set, partition errors and warnings, and derive one
suggested fix per distinct error code. -/
def validateSet (ts : List Txn) : ValidationReport :=
  let issues :=
    requiredFieldIssues ts ++ dateOrderIssues ts ++ duplicateIssues ts ++ termIssues ts
  let errs := issues.filter (fun i => i.severity.isError)
  { errors := errs,
    warnings := issues.filter (fun i => !i.severity.isError),
    suggestedFixes := (errs.map ValidationIssue.code).dedup.map fixFor }

/-- Modelled from the spec: structured failure for the `start` transition. -/
inductive StartError where
  | unknownVendorTarget (key : String)
  deriving DecidableEq

/-- Modelled from the spec: the `start` transition — requires the vendor target
to exist in the registry and creates a `pending_upload` job with empty
collections. -/
def start (jobId : String) (taxYear : Int) (vendorSource vendorTarget startedBy : String) :
    Except StartError Job :=
  match findTemplate vendorTarget with
  | none => Except.error (StartError.unknownVendorTarget vendorTarget)
  | some _ =>
    Except.ok
      { jobId := jobId,
        taxYear := taxYear,
        vendorSource := vendorSource,
        vendorTarget := vendorTarget,
        startedBy := startedBy,
        status := Status.pendingUpload,
        txns := [],
        identities := [],
        validationReport := none,
        reconciliation := none,
        transformed := [],
        exportReport := none,
        expectedTotals := none }

/-- Modelled from the spec: `ingest_identity` — appends identity records and
does not change status by itself. -/
def ingestIdentity (j : Job) (records : List IdentityRecord) : Job :=
  { j with identities := j.identities ++ records }

/-- Modelled from the spec: `ingest_costbasis` — normalizes the batch, appends
the canonical records (append, never replace), advances status to `ingested`
if not already past it, and refreshes the validation report from the full
current normalized set. -/
def ingestCostbasis (j : Job) (batch : List RawRecord) : Job × IngestionSummary :=
  let newTxns := j.txns ++ normalizeBatch batch
  ( { j with
      txns := newTxns,
      status := advanceTo Status.ingested j.status,
      validationReport := some (validateSet newTxns) },
    ingestionSummary batch )

/-- Modelled from the spec: canonical value of a template field for one
transaction (`none` when the field cannot be populated). -/
def canonicalValue (t : Txn) (field : String) : Option String :=
  if field = "account" then some t.account
  else if field = "security" then some t.security
  else if field = "acquired" then t.acquired.map toString
  else if field = "disposed" then t.disposed.map toString
  else if field = "proceeds" then some (toString t.proceeds)
  else if field = "basis" then some (toString t.basis)
  else if field = "term" then t.term
  else none

/-- Modelled from the spec: structured failures of the `transform` transition,
each naming the unmet precondition. -/
inductive TransformError where
  | noTransactions
  | unknownVendor (key : String)
  | blockingErrors (count : Nat)
  | missingTemplateField (field : String)
  deriving DecidableEq

/-- Modelled from the spec: map one transaction onto the template's required
fields, failing on the first required field that cannot be populated. -/
def mapFields (t : Txn) : List String → Except TransformError (List (String × String))
  | [] => Except.ok []
  | f :: fs =>
    match canonicalValue t f with
    | none => Except.error (TransformError.missingTemplateField f)
    | some v =>
      match mapFields t fs with
      | Except.error e => Except.error e
      | Except.ok rest => Except.ok ((f, v) :: rest)

/-- Modelled from the spec: map every canonical transaction onto the selected
template shape. -/
def mapRecords (tpl : VendorTemplate) : List Txn → Except TransformError (List (List (String × String)))
  | [] => Except.ok []
  | t :: ts =>
    match mapFields t tpl.requiredFields with
    | Except.error e => Except.error e
    | Except.ok r =>
      match mapRecords tpl ts with
      | Except.error e => Except.error e
      | Except.ok rs => Except.ok (r :: rs)

/-- Modelled from the spec: the Transformation Engine — shaped records plus a
human-readable summary, or a transformation-level error naming the missing
target field. -/
def renderPayloads (tpl : VendorTemplate) (ts : List Txn) : Except TransformError Payload :=
  match mapRecords tpl ts with
  | Except.error e => Except.error e
  | Except.ok recs =>
    Except.ok
      { vendorKey := tpl.vendorKey,
        records := recs,
        humanReadable := some (toString recs.length ++ " records mapped for " ++ tpl.displayName) }

/-- Modelled from the spec: store or overwrite the payload for one vendor key
in the job's transformed-payload map. -/
def upsertPayload (l : List (String × Payload)) (k : String) (p : Payload) :
    List (String × Payload) :=
  (k, p) :: l.filter (fun e => e.1 != k)

/-- Modelled from the spec: the payload stored for one vendor key, if any. -/
def lookupPayload (l : List (String × Payload)) (k : String) : Option Payload :=
  (l.find? (fun e => e.1 == k)).map (fun e => e.2)

/-- Modelled from the spec: the `transform` transition — requires at least one
normalized transaction, a registered vendor target, and zero error-severity
issues in the ValidationReport; on success stores/overwrites the payload for
the vendor key and advances status to `transformed` if not already past it.
A failure leaves the job unchanged. -/
def transform (j : Job) (vendorKey : String) : Job × Except TransformError Payload :=
  if j.txns.isEmpty then (j, Except.error TransformError.noTransactions)
  else
    match findTemplate vendorKey with
    | none => (j, Except.error (TransformError.unknownVendor vendorKey))
    | some tpl =>
      if (j.validationReport.getD emptyReport).errors.isEmpty then
        match renderPayloads tpl j.txns with
        | Except.error e => (j, Except.error e)
        | Except.ok payload =>
          ( { j with
              transformed := upsertPayload j.transformed vendorKey payload,
              status := advanceTo Status.transformed j.status },
            Except.ok payload )
      else
        (j, Except.error
          (TransformError.blockingErrors (j.validationReport.getD emptyReport).errors.length))

/-- Modelled from the spec: fixed tolerance (in cents) for the aggregate
gain/loss tie-out. -/
def toleranceCents : Nat := 1

/-- Modelled from the spec: aggregate gain/loss recomputed from the
transaction set. -/
def computedGainLoss (ts : List Txn) : Int :=
  ts.foldr (fun t acc => (t.proceeds - t.basis) + acc) 0

/-- Modelled from the spec: accounts referenced by transactions that no
identity record covers. -/
def mismatchedAccountsOf (ts : List Txn) (ids : List IdentityRecord) : List String :=
  ((ts.map Txn.account).dedup).filter (fun a => !(ids.any (fun i => i.account == a)))

/-- Modelled from the spec: the Reconciliation Engine — pure read/compute of
the mismatched-account set and the alignment flag (comparison against the
externally supplied expected totals within the fixed tolerance, vacuously
aligned when no expected totals were supplied). -/
def reconcileCompute (ts : List Txn) (ids : List IdentityRecord) (expected : Option Int) :
    ReconciliationResult :=
  { mismatchedAccounts := mismatchedAccountsOf ts ids,
    gainLossAlignment :=
      match expected with
      | none => true
      | some e => decide ((computedGainLoss ts - e).natAbs ≤ toleranceCents) }

/-- Modelled from the spec: structured failures of the `reconcile` transition. -/
inductive ReconcileError where
  | noIdentityRecords
  | noTransactions
  deriving DecidableEq

/-- Modelled from the spec: the `reconcile` transition — requires at least one
identity record and one normalized transaction; stores the computed result and
sets status to `reconciled` when aligned, else `needs_review`. -/
def reconcile (j : Job) : Job × Except ReconcileError ReconciliationResult :=
  if j.identities.isEmpty then (j, Except.error ReconcileError.noIdentityRecords)
  else if j.txns.isEmpty then (j, Except.error ReconcileError.noTransactions)
  else
    let r := reconcileCompute j.txns j.identities j.expectedTotals
    ( { j with
        reconciliation := some r,
        status := if r.gainLossAlignment then Status.reconciled else Status.needsReview },
      Except.ok r )

/-- Modelled from the spec: structured failures of the `export` transition,
each naming the unmet precondition. -/
inductive ExportError where
  | noTransformForTarget (vendorKey : String)
  | notReconciled (status : Status)
  deriving DecidableEq

/-- Modelled from the spec: rolling character hash used for the stable,
content-derived download locator. -/
def strHash (s : String) (acc : Nat) : Nat :=
  s.foldl (fun a c => (a * 31 + c.toNat) % 1000000007) acc

/-- Modelled from the spec: checksum of a payload's shaped records. -/
def payloadChecksum (p : Payload) : Nat :=
  p.records.foldl
    (fun a rec => rec.foldl (fun a2 kv => strHash kv.2 (strHash kv.1 a2)) a)
    (strHash p.vendorKey 7)

/-- Modelled from the spec: the Export Engine's stable content-derived
locator. -/
def contentLocator (p : Payload) : String :=
  "/downloads/" ++ p.vendorKey ++ "-" ++ toString (payloadChecksum p)

/-- Modelled from the spec: the `export` transition — requires a transformed
payload for the job's current vendor target and status `reconciled`; produces
the ExportReport and advances status to `exported`.  A failure leaves the job
unchanged. -/
def exportJob (j : Job) : Job × Except ExportError ExportReport :=
  match lookupPayload j.transformed j.vendorTarget with
  | none => (j, Except.error (ExportError.noTransformForTarget j.vendorTarget))
  | some payload =>
    if j.status = Status.reconciled then
      let rep : ExportReport :=
        { downloadUrl := contentLocator payload, webhookEvent := "taxinator.export.ready" }
      ( { j with exportReport := some rep, status := Status.exported }, Except.ok rep )
    else (j, Except.error (ExportError.notReconciled j.status))

end Taxinator

namespace ManualUI

/-- JavaScript strings are embedded as character lists. -/
abbrev Str := List Char

/-- Character list of a Lean string literal. -/
def strOf (s : String) : Str := s.data

/-- JS `s.endsWith("/")`. -/
def endsWithSlash (s : Str) : Bool := s.getLast? == some '/'

/-- JS `s.replace(/\/$/, "")` — strips a single trailing slash, if present
(`web/src/app/manual/page.tsx:36`). -/
def jsStripTrailingSlash (s : Str) : Str :=
  if endsWithSlash s then s.dropLast else s

/-- Default API base used when `NEXT_PUBLIC_API_BASE` is unset
(`web/src/app/manual/page.tsx:36`). -/
def defaultApiBase : Str := strOf "http://127.0.0.1:8000/api"

/-- The configured API base before stripping: `process.env.NEXT_PUBLIC_API_BASE
?? default` (`web/src/app/manual/page.tsx:36`). -/
def configuredBase (cfg : Option Str) : Str := cfg.getD defaultApiBase

/-- `API_BASE` module constant (`web/src/app/manual/page.tsx:36`). -/
def apiBase (cfg : Option Str) : Str := jsStripTrailingSlash (configuredBase cfg)

/-- JS `path.startsWith("/")`. -/
def startsWithSlash (s : Str) : Bool := s.head? == some '/'

/-- `buildUrl` from `web/src/app/manual/page.tsx:37` (identical in the Tammy
page): the API base followed by the path, with a slash inserted when the path
does not already start with one. -/
def buildUrl (cfg : Option Str) (path : Str) : Str :=
  apiBase cfg ++ (if startsWithSlash path then path else '/' :: path)

/-- The path with its leading slash removed, when it has one. -/
def stripLeadingSlash (path : Str) : Str :=
  if startsWithSlash path then path.tail else path

/-- Whether a string ends in two consecutive slashes. -/
def endsWithDoubleSlash (s : Str) : Bool :=
  (s.getLast? == some '/') && (s.dropLast.getLast? == some '/')

/-- Options object passed to `fetchJson` (`RequestInit` subset actually used by
the page: method, body, extra headers). -/
structure RequestInitOpts where
  method : Option String := none
  body : Option String := none
  headers : List (String × String) := []

/-- The request `fetchJson` hands to `fetch` (`web/src/app/manual/page.tsx:57`):
URL, spread options, merged headers (later entries override), `cache :=
no-store`. -/
structure HttpRequest where
  url : Str
  method : Option String
  body : Option String
  headers : List (String × String)
  cache : String

/-- A `fetch` response: `ok` flag, body text, parsed JSON body (the TS code
casts the JSON to the expected type without a runtime check). -/
structure HttpResponse (T : Type) where
  ok : Bool
  bodyText : String
  json : T

/-- Value of a header key under JS object-spread semantics: the last binding
wins. -/
def headerValue (hs : List (String × String)) (k : String) : Option String :=
  (hs.reverse.find? (fun h => h.1 == k)).map (fun h => h.2)

/-- `fetchJson` from `web/src/app/manual/page.tsx:56-68` (identical in the
Tammy page): issues one request with Content-Type and X-User-Role headers
(spread options may override), resolves with the parsed JSON when the response
is ok, otherwise throws an Error carrying the response body text.  The network
is an oracle from requests to responses. -/
def fetchJson {T : Type} (cfg : Option Str) (net : HttpRequest → HttpResponse T)
    (path : Str) (role : String) (options : RequestInitOpts) :
    HttpRequest × Except String T :=
  let req : HttpRequest :=
    { url := buildUrl cfg path,
      method := options.method,
      body := options.body,
      headers := [("Content-Type", "application/json"), ("X-User-Role", role)]
        ++ options.headers,
      cache := "no-store" }
  let response := net req
  (req, if response.ok then Except.ok response.json else Except.error response.bodyText)

/-- Loosely typed JSON value (the TS `unknown` payloads). -/
inductive Json where
  | null
  | bool (b : Bool)
  | num (n : Int)
  | str (s : String)
  | arr (items : List Json)
  | obj (fields : List (String × Json))

/-- `Health` response type (`web/src/app/manual/page.tsx:10`). -/
structure HealthUI where
  service : String
  version : String
  environment : String
  contact : String
  status : String

/-- `VendorTemplate` response type (`web/src/app/manual/page.tsx:11`). -/
structure VendorTemplateUI where
  vendor_key : String
  display_name : String
  version : String
  format : String
  required_fields : List String
  mapping_notes : List String

/-- `ValidationIssue` response type (`web/src/app/manual/page.tsx:12`). -/
structure ValidationIssueUI where
  code : String
  message : String
  severity : String
  transaction_id : Option String

/-- `ValidationReport` response type (`web/src/app/manual/page.tsx:13`). -/
structure ValidationReportUI where
  errors : List ValidationIssueUI
  warnings : List ValidationIssueUI
  suggested_fixes : List String

/-- `IngestionResponse.ingestion_summary` type (`web/src/app/manual/page.tsx:16`). -/
structure IngestionSummaryUI where
  total_rows : Int
  missing_fields : List String
  unexpected_fields : List String

/-- `IngestionResponse` type (`web/src/app/manual/page.tsx:14-20`). -/
structure IngestionResponseUI where
  job_id : String
  ingestion_summary : IngestionSummaryUI
  total_transactions : Int
  validation : ValidationReportUI
  normalized : List Json

/-- `JobRecord.reconciliation` type (`web/src/app/manual/page.tsx:29`). -/
structure ReconciliationUI where
  mismatched_accounts : List String
  gain_loss_alignment : Bool

/-- `JobRecord.export_report` type (`web/src/app/manual/page.tsx:30`). -/
structure ExportReportUI where
  download_url : String
  webhook_event : String

/-- `JobRecord` response type (`web/src/app/manual/page.tsx:21-31`). -/
structure JobRecordUI where
  job_id : String
  tax_year : Int
  vendor_source : String
  vendor_target : String
  status : String
  warnings : List ValidationIssueUI
  validation_report : Option ValidationReportUI
  reconciliation : Option ReconciliationUI
  export_report : Option ExportReportUI

/-- `TranslationResponse.payload` type (`web/src/app/manual/page.tsx:32`). -/
structure TranslationPayloadUI where
  vendor_key : String
  records : List Json
  human_readable : Option String

/-- `TranslationResponse` type (`web/src/app/manual/page.tsx:32`). -/
structure TranslationResponseUI where
  payload : TranslationPayloadUI
  status : String

/-- `ExportResponse` type (`web/src/app/manual/page.tsx:33`). -/
structure ExportResponseUI where
  download_url : String
  webhook_event : String

/-- `DEFAULT_ROLE` constant (`web/src/app/manual/page.tsx:38`). -/
def DEFAULT_ROLE : String := "broker_admin"

/-- One HTTP call issued by a handler (method, path, role header). -/
structure ApiCall where
  method : String
  path : String
  role : String

/-- The `ManualPage` component state: one field per `useState` hook
(`web/src/app/manual/page.tsx:41-54`). -/
structure UIState where
  health : Option HealthUI
  templates : List VendorTemplateUI
  costBasisEditor : String
  personalInfoEditor : String
  jobs : List JobRecordUI
  currentJobId : String
  currentJob : Option JobRecordUI
  ingestionResult : Option IngestionResponseUI
  translation : Option TranslationResponseUI
  exportReport : Option ExportResponseUI
  error : Option String
  taxYear : Int
  vendorSource : String
  vendorTarget : String

/-- Environment the handlers run against: `JSON.parse` plus one typed oracle
per backend endpoint (the TS code casts each `fetchJson` result to the
endpoint's response type). -/
structure Env where
  parse : String → Except String Json
  getJobs : Unit → Except String (List JobRecordUI)
  getJob : String → Except String JobRecordUI
  postPersonalInfo : String → Json → Except String Json
  postCostBasis : String → Json → Except String IngestionResponseUI
  postTransform : String → String → Except String TranslationResponseUI
  postReconcile : String → Except String Json
  postExport : String → Except String ExportResponseUI

/-- `refreshJobs` (`web/src/app/manual/page.tsx:89-99`): fetch `/jobs`, store
the records, and reload the current job from the list when one is selected; on
failure clear the job list. -/
def refreshJobs (env : Env) (s : UIState) : UIState × List ApiCall :=
  let call : ApiCall := { method := "GET", path := "/jobs", role := DEFAULT_ROLE }
  match env.getJobs () with
  | Except.error _ => ({ s with jobs := [] }, [call])
  | Except.ok records =>
    let s1 := { s with jobs := records }
    if s.currentJobId ≠ "" then
      match records.find? (fun job => job.job_id == s.currentJobId) with
      | some m => ({ s1 with currentJob := some m }, [call])
      | none => (s1, [call])
    else (s1, [call])

/-- `fetchJob` (`web/src/app/manual/page.tsx:152-159`): fetch one job record
into `currentJob`, recording a thrown Error message in `error`. -/
def fetchJob (env : Env) (jobId : String) (s : UIState) : UIState × List ApiCall :=
  let call : ApiCall := { method := "GET", path := "/jobs/" ++ jobId, role := DEFAULT_ROLE }
  match env.getJob jobId with
  | Except.ok record => ({ s with currentJob := some record }, [call])
  | Except.error msg => ({ s with error := some msg }, [call])

/-- `uploadPersonalInfo` (`web/src/app/manual/page.tsx:124-134`): returns
immediately when no current job id is set; otherwise clears the error, parses
the PII editor (empty editor falls back to `[]`), posts the records and
refreshes the job list; any thrown Error lands in `error`. -/
def uploadPersonalInfo (env : Env) (s : UIState) : UIState × List ApiCall :=
  if s.currentJobId = "" then (s, [])
  else
    let s0 := { s with error := none }
    match env.parse (if s0.personalInfoEditor = "" then "[]" else s0.personalInfoEditor) with
    | Except.error msg => ({ s0 with error := some msg }, [])
    | Except.ok records =>
      let call : ApiCall :=
        { method := "POST", path := "/ingest/personal-info", role := DEFAULT_ROLE }
      match env.postPersonalInfo s0.currentJobId records with
      | Except.error msg => ({ s0 with error := some msg }, [call])
      | Except.ok _ =>
        let step := refreshJobs env s0
        (step.1, call :: step.2)

/-- `uploadCostBasis` (`web/src/app/manual/page.tsx:136-150`): returns
immediately when no current job id is set; otherwise clears the error, parses
the cost-basis editor (empty editor falls back to `[]`), posts the batch,
stores the ingestion result and refetches the current job. -/
def uploadCostBasis (env : Env) (s : UIState) : UIState × List ApiCall :=
  if s.currentJobId = "" then (s, [])
  else
    let s0 := { s with error := none }
    match env.parse (if s0.costBasisEditor = "" then "[]" else s0.costBasisEditor) with
    | Except.error msg => ({ s0 with error := some msg }, [])
    | Except.ok records =>
      let call : ApiCall :=
        { method := "POST", path := "/ingest/costbasis", role := DEFAULT_ROLE }
      match env.postCostBasis s0.currentJobId records with
      | Except.error msg => ({ s0 with error := some msg }, [call])
      | Except.ok result =>
        let s1 := { s0 with ingestionResult := some result }
        let step := fetchJob env s0.currentJobId s1
        (step.1, call :: step.2)

/-- `handleTransform` (`web/src/app/manual/page.tsx:161-174`): returns
immediately when no current job id is set; otherwise clears the error, posts
the transform for the selected vendor target, stores the translation and
refetches the current job. -/
def handleTransform (env : Env) (s : UIState) : UIState × List ApiCall :=
  if s.currentJobId = "" then (s, [])
  else
    let s0 := { s with error := none }
    let call : ApiCall :=
      { method := "POST", path := "/jobs/" ++ s.currentJobId ++ "/transform", role := DEFAULT_ROLE }
    match env.postTransform s0.currentJobId s0.vendorTarget with
    | Except.error msg => ({ s0 with error := some msg }, [call])
    | Except.ok result =>
      let s1 := { s0 with translation := some result }
      let step := fetchJob env s0.currentJobId s1
      (step.1, call :: step.2)

/-- `handleReconcile` (`web/src/app/manual/page.tsx:176-185`): returns
immediately when no current job id is set; otherwise clears the error, posts
the reconcile and refetches the current job. -/
def handleReconcile (env : Env) (s : UIState) : UIState × List ApiCall :=
  if s.currentJobId = "" then (s, [])
  else
    let s0 := { s with error := none }
    let call : ApiCall :=
      { method := "POST", path := "/jobs/" ++ s.currentJobId ++ "/reconcile", role := DEFAULT_ROLE }
    match env.postReconcile s0.currentJobId with
    | Except.error msg => ({ s0 with error := some msg }, [call])
    | Except.ok _ =>
      let step := fetchJob env s0.currentJobId s0
      (step.1, call :: step.2)

/-- `handleExport` (`web/src/app/manual/page.tsx:187-197`): returns immediately
when no current job id is set; otherwise clears the error, posts the export,
stores the export report and refetches the current job. -/
def handleExport (env : Env) (s : UIState) : UIState × List ApiCall :=
  if s.currentJobId = "" then (s, [])
  else
    let s0 := { s with error := none }
    let call : ApiCall :=
      { method := "POST", path := "/jobs/" ++ s.currentJobId ++ "/export", role := DEFAULT_ROLE }
    match env.postExport s0.currentJobId with
    | Except.error msg => ({ s0 with error := some msg }, [call])
    | Except.ok result =>
      let s1 := { s0 with exportReport := some result }
      let step := fetchJob env s0.currentJobId s1
      (step.1, call :: step.2)

end ManualUI

section Witnesses

open Taxinator ManualUI

/-- Concrete well-formed raw transaction row used by witnesses. -/
def wRawGood : Taxinator.RawRecord :=
  { id := some "t1", account := some "A1", security := some "AAPL",
    acquired := some 100, disposed := some 600,
    proceeds := some 10000, basis := some 8000, term := none, extraFields := [] }

/-- Concrete raw row whose acquisition date is after its disposition date. -/
def wRawBad : Taxinator.RawRecord :=
  { id := some "t2", account := some "A1", security := some "AAPL",
    acquired := some 700, disposed := some 600,
    proceeds := some 10000, basis := some 8000, term := none, extraFields := [] }

/-- Concrete freshly started job used by witnesses. -/
def wBase : Taxinator.Job :=
  { jobId := "job-1", taxYear := 2024,
    vendorSource := "demo_cost_basis_vendor", vendorTarget := "fis",
    startedBy := "broker_admin", status := Taxinator.Status.pendingUpload,
    txns := [], identities := [], validationReport := none, reconciliation := none,
    transformed := [], exportReport := none, expectedTotals := none }

/-- The base job after ingesting the well-formed row. -/
def wIngested : Taxinator.Job := (Taxinator.ingestCostbasis wBase [wRawGood]).1

/-- The base job after ingesting the bad-date row. -/
def wBadJob : Taxinator.Job := (Taxinator.ingestCostbasis wBase [wRawBad]).1

/-- The normalized form of the bad-date row. -/
def wBadTxn : Taxinator.Txn :=
  { transactionId := some "t2", account := "A1", security := "AAPL",
    acquired := some 700, disposed := some 600,
    proceeds := 10000, basis := 8000, term := some "short" }

/-- Concrete identity record covering account A1. -/
def wIdentity : Taxinator.IdentityRecord :=
  { account := "A1", name := "Alice Doe", taxId := "123-45-6789" }

/-- Ingested job with an identity record and expected totals supplied. -/
def wReconJob : Taxinator.Job :=
  { Taxinator.ingestIdentity wIngested [wIdentity] with expectedTotals := some 2000 }

/-- The ingested job after a successful transform for the `fis` target. -/
def wTransformed : Taxinator.Job := (Taxinator.transform wIngested "fis").1

/-- The payload the first transform of the witness job produces. -/
def wPayload : Taxinator.Payload :=
  match (Taxinator.transform wIngested "fis").2 with
  | Except.ok p => p
  | Except.error _ => { vendorKey := "", records := [], humanReadable := none }

deriving instance DecidableEq for Except

/-- Trivial network environment for the UI handler witnesses. -/
def wEnv : ManualUI.Env :=
  { parse := fun _ => Except.error "offline",
    getJobs := fun _ => Except.error "offline",
    getJob := fun _ => Except.error "offline",
    postPersonalInfo := fun _ _ => Except.error "offline",
    postCostBasis := fun _ _ => Except.error "offline",
    postTransform := fun _ _ => Except.error "offline",
    postReconcile := fun _ => Except.error "offline",
    postExport := fun _ => Except.error "offline" }

/-- Concrete network oracle for the fetchJson witness: every request succeeds
with a numeric body. -/
def wNet : ManualUI.HttpRequest → ManualUI.HttpResponse Nat :=
  fun _ => { ok := true, bodyText := "", json := 5 }

/-- Initial component state of the manual page (no job selected). -/
def wUIState : ManualUI.UIState :=
  { health := none, templates := [], costBasisEditor := "", personalInfoEditor := "",
    jobs := [], currentJobId := "", currentJob := none, ingestionResult := none,
    translation := none, exportReport := none, error := none,
    taxYear := 2024, vendorSource := "demo_cost_basis_vendor", vendorTarget := "fis" }

end Witnesses

open Taxinator ManualUI

theorem upsertPayload_idem (l : List (String × Taxinator.Payload)) (k : String) (p : Taxinator.Payload) :
    upsertPayload (upsertPayload l k p) k p = upsertPayload l k p := by
  unfold upsertPayload
  simp [List.filter_filter]

theorem advanceTo_transformed_idem (s : Status) :
    advanceTo Status.transformed (advanceTo Status.transformed s) = advanceTo Status.transformed s := by
  cases s <;> rfl

/-- C2: For every job and every pair of raw batches A and B, ingesting A then B
appends the normalized records of A followed by those of B to the job's
normalized transaction collection (never replacing), so for a job with no
prior transactions the collection is exactly normalize(A) ++ normalize(B) and
its size is the sum of the two batches' normalized-record counts. -/
theorem ingest_costbasis_appends (j : Job) (A B : List RawRecord) :
    ((ingestCostbasis (ingestCostbasis j A).1 B).1).txns
      = j.txns ++ (normalizeBatch A ++ normalizeBatch B)
    ∧ ((ingestCostbasis (ingestCostbasis j A).1 B).1).txns.length
      = j.txns.length + ((normalizeBatch A).length + (normalizeBatch B).length)
    ∧ (j.txns = [] →
        ((ingestCostbasis (ingestCostbasis j A).1 B).1).txns
          = normalizeBatch A ++ normalizeBatch B
        ∧ ((ingestCostbasis (ingestCostbasis j A).1 B).1).txns.length
          = (normalizeBatch A).length + (normalizeBatch B).length) := by
  refine ⟨?_, ?_, ?_⟩
  · simp [ingestCostbasis]
  · simp [ingestCostbasis]
  · intro h
    simp [ingestCostbasis, h]

/-- C2 witness: the append property evaluated on a fresh concrete job and two
one-row batches. -/
theorem ingest_costbasis_appends_witness :
    ((ingestCostbasis (ingestCostbasis wBase [wRawGood]).1 [wRawBad]).1).txns
      = normalizeBatch [wRawGood] ++ normalizeBatch [wRawBad]
    ∧ ((ingestCostbasis (ingestCostbasis wBase [wRawGood]).1 [wRawBad]).1).txns.length
      = (normalizeBatch [wRawGood]).length + (normalizeBatch [wRawBad]).length :=
  (ingest_costbasis_appends wBase [wRawGood] [wRawBad]).2.2 rfl

/-- C4: For every job with no transformed payload stored for its current
vendor target, `export` fails with a structured precondition error naming the
missing transform, and the job is exactly unchanged. -/
theorem export_without_transform_fails (j : Job)
    (h : lookupPayload j.transformed j.vendorTarget = none) :
    (exportJob j).1 = j
    ∧ (exportJob j).2 = Except.error (ExportError.noTransformForTarget j.vendorTarget) := by
  simp [exportJob, h]

/-- C4 witness: exporting the freshly started concrete job fails and leaves it
unchanged. -/
theorem export_without_transform_fails_witness :
    (exportJob wBase).1 = wBase
    ∧ (exportJob wBase).2 = Except.error (ExportError.noTransformForTarget wBase.vendorTarget) :=
  export_without_transform_fails wBase (by decide)

/-- C5: For every valid start request (vendor target resolving in the
registry), the created Job has status `pending_upload` and all owned
collections empty. -/
theorem start_creates_pending_empty (jobId : String) (y : Int) (src tgt role : String)
    (tpl : VendorTemplate) (h : findTemplate tgt = some tpl) :
    ∃ j, start jobId y src tgt role = Except.ok j
      ∧ j.status = Status.pendingUpload
      ∧ j.txns = [] ∧ j.identities = []
      ∧ j.validationReport = none ∧ j.reconciliation = none
      ∧ j.transformed = [] ∧ j.exportReport = none := by
  unfold start
  rw [h]
  exact ⟨_, rfl, rfl, rfl, rfl, rfl, rfl, rfl, rfl⟩

/-- C5 witness: a concrete valid start request for the `fis` target. -/
theorem start_creates_pending_empty_witness :
    ∃ j, start "job-1" 2024 "demo_cost_basis_vendor" "fis" "broker_admin" = Except.ok j
      ∧ j.status = Status.pendingUpload
      ∧ j.txns = [] ∧ j.identities = []
      ∧ j.validationReport = none ∧ j.reconciliation = none
      ∧ j.transformed = [] ∧ j.exportReport = none :=
  start_creates_pending_empty "job-1" 2024 "demo_cost_basis_vendor" "fis" "broker_admin"
    fisTemplate (by decide)

/-- C1: For every job, a second `transform` call with the same vendor target,
with the job unchanged since the first successful call, returns the identical
transformed payload and leaves the job (its status included) unchanged. -/
theorem transform_repeat_identical (j : Job) (k : String) (j1 : Job) (p : Payload)
    (h : transform j k = (j1, Except.ok p)) :
    transform j1 k = (j1, Except.ok p) := by
  obtain ⟨jid, ty, vs, vt, sb, st, txns, ids, vr, rec, tr, er, et⟩ := j
  simp only [transform] at h ⊢
  split at h
  · simp at h
  next h0 =>
    split at h
    next heq => simp at h
    next tpl heq =>
      split at h
      next h2 =>
        split at h
        next e hr => simp at h
        next payload hr =>
          simp only [Prod.mk.injEq, Except.ok.injEq] at h
          obtain ⟨hj, hp⟩ := h
          subst hj
          subst hp
          simp [h0, heq, h2, hr, upsertPayload_idem, advanceTo_transformed_idem]
      next h2 => simp at h

/-- C1 witness: re-transforming the concrete ingested job for the `fis` target
returns the identical payload and job. -/
theorem transform_repeat_identical_witness :
    transform wTransformed "fis" = (wTransformed, Except.ok wPayload) :=
  transform_repeat_identical wIngested "fis" wTransformed wPayload (by decide)

/-- C3: For every normalized transaction whose acquisition date is strictly
after its disposition date, validation emits a `date_order` error-severity
issue, and while that issue is present in the job's ValidationReport every
`transform` call on the job fails. -/
theorem date_order_blocks_transform (j : Job) (t : Txn) (a d : Int) (k : String)
    (ht : t ∈ j.txns) (ha : t.acquired = some a) (hd : t.disposed = some d) (hlt : d < a)
    (hrep : j.validationReport = some (validateSet j.txns)) :
    (∃ i ∈ (validateSet j.txns).errors,
      i.code = "date_order" ∧ i.severity = Severity.error)
    ∧ ∃ e, (transform j k).2 = Except.error e := by
  have hissue : mkIssue "date_order" "acquisition date is after disposition date"
      Severity.error t.transactionId ∈ dateOrderIssues j.txns := by
    unfold dateOrderIssues
    refine List.mem_filterMap.mpr ⟨t, ht, ?_⟩
    rw [ha, hd]
    simp [hlt]
  have herr : mkIssue "date_order" "acquisition date is after disposition date"
      Severity.error t.transactionId ∈ (validateSet j.txns).errors := by
    simp only [validateSet]
    exact List.mem_filter.mpr ⟨by simp [List.mem_append, hissue], rfl⟩
  have hne : (validateSet j.txns).errors ≠ [] := by
    intro hnil
    rw [hnil] at herr
    exact List.not_mem_nil _ herr
  have hie : j.txns.isEmpty = false := by
    cases hjt : j.txns with
    | nil => rw [hjt] at ht; exact absurd ht (List.not_mem_nil t)
    | cons x xs => rfl
  have hee : (validateSet j.txns).errors.isEmpty = false := by
    cases hjt : (validateSet j.txns).errors with
    | nil => exact absurd hjt hne
    | cons x xs => rfl
  refine ⟨⟨_, herr, rfl, rfl⟩, ?_⟩
  cases htpl : findTemplate k with
  | none => exact ⟨TransformError.unknownVendor k, by simp [transform, hie, htpl]⟩
  | some tpl =>
    exact ⟨TransformError.blockingErrors (validateSet j.txns).errors.length,
      by simp [transform, hie, htpl, hrep, hee]⟩

/-- C3 witness: the concrete bad-date job carries the `date_order` error and
its transform for the `fis` target fails. -/
theorem date_order_blocks_transform_witness :
    (∃ i ∈ (validateSet wBadJob.txns).errors,
      i.code = "date_order" ∧ i.severity = Severity.error)
    ∧ ∃ e, (transform wBadJob "fis").2 = Except.error e :=
  date_order_blocks_transform wBadJob wBadTxn 700 600 "fis"
    (by decide) (by decide) (by decide) (by decide) (by decide)

theorem mismatched_nil_iff (ts : List Txn) (ids : List IdentityRecord) :
    mismatchedAccountsOf ts ids = [] ↔ ∀ t ∈ ts, ∃ i ∈ ids, i.account = t.account := by
  unfold mismatchedAccountsOf
  rw [List.filter_eq_nil_iff]
  constructor
  · intro h t ht
    have hmem : t.account ∈ (ts.map Txn.account).dedup :=
      List.mem_dedup.mpr (List.mem_map_of_mem Txn.account ht)
    have h2 := h _ hmem
    simp at h2
    exact h2
  · intro h a ha
    simp only [List.mem_dedup, List.mem_map] at ha
    obtain ⟨t, ht, rfl⟩ := ha
    obtain ⟨i, hi, hacc⟩ := h t ht
    simp
    exact ⟨i, hi, hacc⟩

/-- C6: For every job with externally supplied expected totals, the computed
ReconciliationResult's alignment flag is true iff the recomputed aggregate
gain/loss matches the expected totals within the fixed tolerance, and its
mismatched-account set is empty iff every account referenced by a transaction
has a corresponding identity record. -/
theorem reconciliation_alignment_iff (j : Job) (e : Int) (h : j.expectedTotals = some e) :
    ((reconcileCompute j.txns j.identities j.expectedTotals).gainLossAlignment = true
      ↔ (computedGainLoss j.txns - e).natAbs ≤ toleranceCents)
    ∧ ((reconcileCompute j.txns j.identities j.expectedTotals).mismatchedAccounts = []
      ↔ ∀ t ∈ j.txns, ∃ i ∈ j.identities, i.account = t.account) := by
  constructor
  · simp [reconcileCompute, h]
  · simpa [reconcileCompute] using mismatched_nil_iff j.txns j.identities

/-- C6 witness: both equivalences evaluated on the concrete reconciliation-ready
job with expected totals 2000 cents. -/
theorem reconciliation_alignment_iff_witness :
    ((reconcileCompute wReconJob.txns wReconJob.identities wReconJob.expectedTotals).gainLossAlignment = true
      ↔ (computedGainLoss wReconJob.txns - 2000).natAbs ≤ toleranceCents)
    ∧ ((reconcileCompute wReconJob.txns wReconJob.identities wReconJob.expectedTotals).mismatchedAccounts = []
      ↔ ∀ t ∈ wReconJob.txns, ∃ i ∈ wReconJob.identities, i.account = t.account) :=
  reconciliation_alignment_iff wReconJob 2000 (by decide)

/-- C7: For every job with at least one identity record and one normalized
transaction, `reconcile` computes and stores a ReconciliationResult and sets
the status to `reconciled` when the alignment flag is true and to
`needs_review` when it is false. -/
theorem reconcile_sets_status_by_alignment (j : Job)
    (h1 : j.identities ≠ []) (h2 : j.txns ≠ []) :
    ∃ r, (reconcile j).2 = Except.ok r
      ∧ (reconcile j).1.reconciliation = some r
      ∧ (reconcile j).1.status
        = (if r.gainLossAlignment then Status.reconciled else Status.needsReview) := by
  have e1 : j.identities.isEmpty = false := by
    cases hc : j.identities with
    | nil => exact absurd hc h1
    | cons x xs => rfl
  have e2 : j.txns.isEmpty = false := by
    cases hc : j.txns with
    | nil => exact absurd hc h2
    | cons x xs => rfl
  refine ⟨reconcileCompute j.txns j.identities j.expectedTotals, ?_, ?_, ?_⟩ <;>
    simp [reconcile, e1, e2]

/-- C7 witness: reconciling the concrete job with one identity record and one
transaction. -/
theorem reconcile_sets_status_by_alignment_witness :
    ∃ r, (reconcile wReconJob).2 = Except.ok r
      ∧ (reconcile wReconJob).1.reconciliation = some r
      ∧ (reconcile wReconJob).1.status
        = (if r.gainLossAlignment then Status.reconciled else Status.needsReview) :=
  reconcile_sets_status_by_alignment wReconJob (by decide) (by decide)

/-- C8: Every mutating pipeline handler of the manual page (uploadPersonalInfo,
uploadCostBasis, handleTransform, handleReconcile, handleExport) is a no-op
when no current job id is set: it issues no HTTP request and leaves the
component state unchanged. -/
theorem handlers_noop_without_job (env : ManualUI.Env) (s : UIState)
    (h : s.currentJobId = "") :
    uploadPersonalInfo env s = (s, [])
    ∧ uploadCostBasis env s = (s, [])
    ∧ handleTransform env s = (s, [])
    ∧ handleReconcile env s = (s, [])
    ∧ handleExport env s = (s, []) := by
  refine ⟨?_, ?_, ?_, ?_, ?_⟩ <;>
    simp [uploadPersonalInfo, uploadCostBasis, handleTransform, handleReconcile,
      handleExport, h]

/-- C8 witness: the five handlers on the initial component state against a
concrete offline environment. -/
theorem handlers_noop_without_job_witness :
    uploadPersonalInfo wEnv wUIState = (wUIState, [])
    ∧ uploadCostBasis wEnv wUIState = (wUIState, [])
    ∧ handleTransform wEnv wUIState = (wUIState, [])
    ∧ handleReconcile wEnv wUIState = (wUIState, [])
    ∧ handleExport wEnv wUIState = (wUIState, []) :=
  handlers_noop_without_job wEnv wUIState rfl

/-- C9 counterexample: the claim asserts the API base never ends in a slash
because a trailing slash is stripped from the configured value; but the code
strips only a single trailing slash, so a configured value ending in two
slashes leaves an API base that still ends in a slash. -/
theorem api_base_trailing_slash_counterexample :
    endsWithSlash (apiBase (some (strOf "http://127.0.0.1:8000/api//"))) = true := by
  decide

/-- C9 (amended): buildUrl(path) equals the API base concatenated with exactly
one inserted '/' and the path without its leading slash; the API base has one
trailing slash stripped from the configured value, so it can end in a slash
only when the configured value ends in two consecutive slashes (in particular
the default base never ends in a slash). -/
theorem buildUrl_single_slash (cfg : Option Str) (path : Str) :
    buildUrl cfg path = apiBase cfg ++ '/' :: stripLeadingSlash path
    ∧ (endsWithSlash (apiBase cfg) = true → endsWithDoubleSlash (configuredBase cfg) = true)
    ∧ endsWithSlash (apiBase none) = false := by
  refine ⟨?_, ?_, by decide⟩
  · cases path with
    | nil => simp [buildUrl, startsWithSlash, stripLeadingSlash]
    | cons c cs =>
      by_cases hc : c = '/'
      · subst hc
        simp [buildUrl, startsWithSlash, stripLeadingSlash]
      · simp [buildUrl, startsWithSlash, stripLeadingSlash, hc]
  · intro h
    unfold apiBase jsStripTrailingSlash at h
    by_cases hb : endsWithSlash (configuredBase cfg) = true
    · rw [if_pos hb] at h
      unfold endsWithDoubleSlash
      unfold endsWithSlash at hb h
      rw [hb, h]
      rfl
    · rw [if_neg hb] at h
      exact absurd h hb

/-- C9 witness: the amended equality on a concrete path, and the
double-slash-configured base that forces the amendment. -/
theorem buildUrl_single_slash_witness :
    buildUrl none (strOf "/jobs")
      = apiBase none ++ '/' :: stripLeadingSlash (strOf "/jobs")
    ∧ endsWithDoubleSlash (configuredBase (some (strOf "http://127.0.0.1:8000/api//"))) = true :=
  ⟨(buildUrl_single_slash none (strOf "/jobs")).1,
    (buildUrl_single_slash (some (strOf "http://127.0.0.1:8000/api//")) (strOf "/jobs")).2.1
      (by decide)⟩

/-- C10: fetchJson resolves with the parsed JSON body exactly when the response
is ok and otherwise throws the response body text; every request it issues (the
page never passes extra headers) carries Content-Type application/json and the
supplied role in X-User-Role. -/
theorem fetchJson_contract {T : Type} (cfg : Option Str) (net : HttpRequest → HttpResponse T)
    (path : Str) (role : String) (options : RequestInitOpts)
    (h : options.headers = []) :
    headerValue (fetchJson cfg net path role options).1.headers "Content-Type"
      = some "application/json"
    ∧ headerValue (fetchJson cfg net path role options).1.headers "X-User-Role" = some role
    ∧ ((net (fetchJson cfg net path role options).1).ok = true →
        (fetchJson cfg net path role options).2
          = Except.ok (net (fetchJson cfg net path role options).1).json)
    ∧ ((net (fetchJson cfg net path role options).1).ok = false →
        (fetchJson cfg net path role options).2
          = Except.error (net (fetchJson cfg net path role options).1).bodyText) := by
  refine ⟨?_, ?_, ?_, ?_⟩
  · simp [fetchJson, headerValue, h]
  · simp [fetchJson, headerValue, h]
  · intro hok
    simp only [fetchJson, h, List.append_nil] at hok ⊢
    simp [hok]
  · intro hok
    simp only [fetchJson, h, List.append_nil] at hok ⊢
    simp [hok]

/-- C10 witness: the contract evaluated against a concrete network returning a
successful numeric body. -/
theorem fetchJson_contract_witness :
    headerValue (fetchJson none wNet (strOf "/health") "broker_admin" {}).1.headers "Content-Type"
      = some "application/json"
    ∧ headerValue (fetchJson none wNet (strOf "/health") "broker_admin" {}).1.headers "X-User-Role"
      = some "broker_admin"
    ∧ ((wNet (fetchJson none wNet (strOf "/health") "broker_admin" {}).1).ok = true →
        (fetchJson none wNet (strOf "/health") "broker_admin" {}).2
          = Except.ok (wNet (fetchJson none wNet (strOf "/health") "broker_admin" {}).1).json)
    ∧ ((wNet (fetchJson none wNet (strOf "/health") "broker_admin" {}).1).ok = false →
        (fetchJson none wNet (strOf "/health") "broker_admin" {}).2
          = Except.error (wNet (fetchJson none wNet (strOf "/health") "broker_admin" {}).1).bodyText) :=
  fetchJson_contract none wNet (strOf "/health") "broker_admin" {} rfl
